import Mathlib

/-!
Verification of the document-clustering pipeline
(`maincode.py`: `clean_text`, `extract_topic`, `run_document_clustering`;
`app.py`: `cluster_api`) against its design specification.

The external numeric libraries (the sentence-embedding model, the k-means
implementation and the TF-IDF vectorizer) are not part of this repository;
they enter the embedding as explicit function parameters.  Everything the
repository's own code does — validation, index bookkeeping, cluster
assembly, top-term selection, error degradation — is translated directly
from the source.  Machine floats are modelled by `ℚ`: only order and
equality of weights matter to the code under verification.
-/

/-! Section: Python string primitives -/

/-- The characters Python's `str.strip()` and the regex class `\s` treat as
whitespace (ASCII fragment). -/
def isPySpace (c : Char) : Bool :=
  c = ' ' || c = '\t' || c = '\n' || c = '\r' || c = '\x0b' || c = '\x0c'

/-- `str.strip()` on a character list: drop whitespace from both ends. -/
def pyStripList (l : List Char) : List Char :=
  ((l.dropWhile isPySpace).reverse.dropWhile isPySpace).reverse

/-- Python `s.strip()`. -/
def pyStrip (s : String) : String :=
  ⟨pyStripList s.data⟩

/-- Truthiness of `d.strip()` in `if d.strip():` — true iff some character
of `d` is not whitespace. -/
def pyStripTruthy (s : String) : Bool :=
  !(pyStripList s.data).isEmpty

/-! Section: `clean_text` (maincode.py lines 9–14) -/

/-- The characters kept by the regex `[^a-zA-Z0-9\s]` (besides whitespace). -/
def isKeptAlnum (c : Char) : Bool :=
  ('a' ≤ c && c ≤ 'z') || ('A' ≤ c && c ≤ 'Z') || ('0' ≤ c && c ≤ '9')

/-- `re.sub(r"[^a-zA-Z0-9\s]", " ", t)`: every character that is neither
alphanumeric nor whitespace becomes a single space. -/
def subNonAlnum (l : List Char) : List Char :=
  l.map (fun c => if isKeptAlnum c || isPySpace c then c else ' ')

/-- Helper for `collapseWS`: the flag records whether we are inside a
whitespace run that has already emitted its single space. -/
def collapseWSAux : Bool → List Char → List Char
  | _, [] => []
  | inRun, c :: cs =>
    if isPySpace c then
      if inRun then collapseWSAux true cs else ' ' :: collapseWSAux true cs
    else c :: collapseWSAux false cs

/-- `re.sub(r"\s+", " ", t)`: each maximal run of whitespace becomes one
space. -/
def collapseWS (l : List Char) : List Char :=
  collapseWSAux false l

/-- `clean_text` from `maincode.py`: lowercase, replace non-alphanumerics
by a space, collapse whitespace, strip.  (`str.lower()` is modelled by
`Char.toLower`, i.e. on the ASCII letter range, which is where the regex
classes of the next step live.) -/
def clean_text (s : String) : String :=
  ⟨pyStripList (collapseWS (subNonAlnum (s.data.map Char.toLower)))⟩

/-- The character class `[a-z0-9 ]` named by the specification. -/
def specKeep (c : Char) : Bool :=
  ('a' ≤ c && c ≤ 'z') || ('0' ≤ c && c ≤ '9') || c = ' '

/-- The Normalizer as worded in the specification (§4.1): lowercase,
replace every character outside `[a-z0-9 ]` with a single space, collapse
runs of whitespace to one space, trim both ends. -/
def normalizeSpec (s : String) : String :=
  ⟨pyStripList (collapseWS ((s.data.map Char.toLower).map
      (fun c => if specKeep c then c else ' ')))⟩

/-! Section: `clean_text` agrees with the specification's Normalizer -/

/-- Sending every whitespace character to `' '` (identity elsewhere). -/
def normSpace (c : Char) : Char :=
  if isPySpace c then ' ' else c

theorem isPySpace_normSpace (c : Char) : isPySpace (normSpace c) = isPySpace c := by
  unfold normSpace
  split
  · simp_all [isPySpace]
  · rfl

theorem collapseWSAux_map_normSpace (b : Bool) (l : List Char) :
    collapseWSAux b (l.map normSpace) = collapseWSAux b l := by
  induction l generalizing b with
  | nil => rfl
  | cons c cs ih =>
    rw [List.map_cons, collapseWSAux, collapseWSAux, isPySpace_normSpace]
    by_cases h : isPySpace c = true
    · rw [if_pos h, if_pos h]
      cases b
      · rw [if_neg (by decide), if_neg (by decide), ih]
      · rw [if_pos rfl, if_pos rfl, ih]
    · rw [if_neg h, if_neg h]
      have hc : normSpace c = c := by
        unfold normSpace
        rw [if_neg h]
      rw [hc, ih]

theorem collapseWS_map_normSpace (l : List Char) :
    collapseWS (l.map normSpace) = collapseWS l :=
  collapseWSAux_map_normSpace false l

theorem char_le_iff_toNat (a b : Char) : a ≤ b ↔ a.toNat ≤ b.toNat := by
  rw [Char.le_def, UInt32.le_def, BitVec.le_def]
  rfl

theorem toNat_toLower_of_upper (c : Char) (h : 65 ≤ c.toNat ∧ c.toNat ≤ 90) :
    c.toLower.toNat = c.toNat + 32 := by
  unfold Char.toLower
  rw [if_pos (⟨h.1, h.2⟩ : c.toNat ≥ 65 ∧ c.toNat ≤ 90)]
  unfold Char.ofNat
  rw [dif_pos (Or.inl (by omega : c.toNat + 32 < 55296))]
  rfl

theorem toLower_of_not_upper (c : Char) (h : ¬(65 ≤ c.toNat ∧ c.toNat ≤ 90)) :
    c.toLower = c := by
  unfold Char.toLower
  rw [if_neg (by exact_mod_cast h)]

theorem toLower_not_upper (c : Char) : ¬('A' ≤ c.toLower && c.toLower ≤ 'Z') = true := by
  intro hAZ
  rw [Bool.and_eq_true, decide_eq_true_eq, decide_eq_true_eq,
    char_le_iff_toNat, char_le_iff_toNat] at hAZ
  have hA : ('A' : Char).toNat = 65 := rfl
  have hZ : ('Z' : Char).toNat = 90 := rfl
  rw [hA, hZ] at hAZ
  by_cases hr : 65 ≤ c.toNat ∧ c.toNat ≤ 90
  · have := toNat_toLower_of_upper c hr
    omega
  · rw [toLower_of_not_upper c hr] at hAZ
    exact hr hAZ

theorem isKeptAlnum_iff (c : Char) : isKeptAlnum c = true ↔
    (97 ≤ c.toNat ∧ c.toNat ≤ 122) ∨ (65 ≤ c.toNat ∧ c.toNat ≤ 90) ∨
      (48 ≤ c.toNat ∧ c.toNat ≤ 57) := by
  have ha : ('a' : Char).toNat = 97 := rfl
  have hz : ('z' : Char).toNat = 122 := rfl
  have hA : ('A' : Char).toNat = 65 := rfl
  have hZ : ('Z' : Char).toNat = 90 := rfl
  have h0 : ('0' : Char).toNat = 48 := rfl
  have h9 : ('9' : Char).toNat = 57 := rfl
  simp only [isKeptAlnum, Bool.or_eq_true, Bool.and_eq_true, decide_eq_true_eq,
    char_le_iff_toNat, ha, hz, hA, hZ, h0, h9]
  tauto

theorem specKeep_iff (c : Char) : specKeep c = true ↔
    (97 ≤ c.toNat ∧ c.toNat ≤ 122) ∨ (48 ≤ c.toNat ∧ c.toNat ≤ 57) ∨ c = ' ' := by
  have ha : ('a' : Char).toNat = 97 := rfl
  have hz : ('z' : Char).toNat = 122 := rfl
  have h0 : ('0' : Char).toNat = 48 := rfl
  have h9 : ('9' : Char).toNat = 57 := rfl
  simp only [specKeep, Bool.or_eq_true, Bool.and_eq_true, decide_eq_true_eq,
    char_le_iff_toNat, ha, hz, h0, h9]
  tauto

theorem spec_step_eq_normSpace_code_step (c : Char)
    (h : ¬('A' ≤ c && c ≤ 'Z') = true) :
    (if specKeep c then c else ' ') =
      normSpace (if isKeptAlnum c || isPySpace c then c else ' ') := by
  by_cases hsp : isPySpace c = true
  · -- a whitespace character: both sides come out as a single space
    simp only [isPySpace, Bool.or_eq_true, decide_eq_true_eq] at hsp
    rcases hsp with ((((h1 | h1) | h1) | h1) | h1) | h1 <;> subst h1 <;> decide
  · have hN : ¬(65 ≤ c.toNat ∧ c.toNat ≤ 90) := by
      intro hc
      apply h
      rw [Bool.and_eq_true, decide_eq_true_eq, decide_eq_true_eq,
        char_le_iff_toNat, char_le_iff_toNat]
      exact hc
    by_cases hk : isKeptAlnum c = true
    · -- kept alphanumeric (and not A–Z by hypothesis): both sides keep c
      have hspec : specKeep c = true := by
        rcases (isKeptAlnum_iff c).mp hk with h1 | h1 | h1
        · exact (specKeep_iff c).mpr (Or.inl h1)
        · exact absurd h1 hN
        · exact (specKeep_iff c).mpr (Or.inr (Or.inl h1))
      rw [if_pos hspec, if_pos (by rw [hk, Bool.true_or])]
      unfold normSpace
      rw [if_neg hsp]
    · -- neither alphanumeric nor whitespace: both sides are a space
      have hspec : ¬specKeep c = true := by
        intro hs
        rcases (specKeep_iff c).mp hs with h1 | h1 | h1
        · exact hk ((isKeptAlnum_iff c).mpr (Or.inl h1))
        · exact hk ((isKeptAlnum_iff c).mpr (Or.inr (Or.inr h1)))
        · subst h1
          exact hsp rfl
      rw [if_neg hspec, if_neg (by simp [hk, hsp])]
      unfold normSpace
      rw [if_pos (by decide)]

theorem clean_text_eq_normalizeSpec (s : String) : clean_text s = normalizeSpec s := by
  unfold clean_text normalizeSpec
  congr 1
  have key : (s.data.map Char.toLower).map (fun c => if specKeep c then c else ' ')
      = (subNonAlnum (s.data.map Char.toLower)).map normSpace := by
    unfold subNonAlnum
    rw [List.map_map, List.map_map, List.map_map]
    apply List.map_congr_left
    intro c0 _
    simp only [Function.comp]
    exact spec_step_eq_normSpace_code_step _ (toLower_not_upper c0)
  rw [key, collapseWS_map_normSpace]

/-- C6: `normalize`/`clean_text` is a total pure function that lowercases,
replaces every character outside `[a-z0-9 ]` with a space, collapses
whitespace runs to one space and trims; in particular
`clean_text "Hello, World!!" = "hello world"` and `clean_text "   " = ""`. -/
theorem claim_C6_normalize_spec :
    (∀ s : String, clean_text s = normalizeSpec s) ∧
      clean_text "Hello, World!!" = "hello world" ∧ clean_text "   " = "" :=
  ⟨clean_text_eq_normalizeSpec, by decide, by decide⟩

/-! Section: `extract_topic` (maincode.py lines 16–38)

The TF-IDF vectorizer is external library code (sklearn); `extract_topic`
is therefore embedded as a function of an abstract vectorizer parameter.
The vectorizer returns, for a document group, the list of feature terms
paired with the per-term summed weights (`terms`/`sums` of lines 28–29,
packed together so that the two sequences have equal length by
construction), or an error — modelling any exception raised during
fitting/weighting, which the source catches on line 36. -/

/-- Abstract TF-IDF vectorizer interface: feature terms paired with their
summed weights across the group, or an internal failure. -/
def Vectorizer : Type :=
  List String → Except String (List (String × ℚ))

/-- Comparison used to model `numpy.argsort` on the weight vector: by
value, ties by index (a stable ascending sort of the positions). -/
def argsortRel (sums : List ℚ) (i j : Nat) : Prop :=
  sums.getD i 0 < sums.getD j 0 ∨ (sums.getD i 0 = sums.getD j 0 ∧ i ≤ j)

instance (sums : List ℚ) : DecidableRel (argsortRel sums) := by
  unfold argsortRel
  infer_instance

/-- `sums.argsort()` (maincode.py line 32): the positions `0..n-1` sorted
ascending by weight, equal weights keeping their original (ascending
index) order. -/
def argsort (sums : List ℚ) : List Nat :=
  (List.range sums.length).insertionSort (argsortRel sums)

/-- `extract_topic` from `maincode.py`: top keywords of one cluster.
Empty group, empty vocabulary and vectorizer failure all degrade to the
sentinel `"No topic"`; otherwise the three highest-weight terms
(`argsort()[::-1][:3]`) are joined with `", "`. -/
def extract_topic (vec : Vectorizer) (docs : List String) : String :=
  if docs.isEmpty then "No topic"
  else
    match vec docs with
    | .error _ => "No topic"
    | .ok pairs =>
      if docs.length = 0 || pairs.length = 0 then "No topic"
      else
        let terms := pairs.map Prod.fst
        let sums := pairs.map Prod.snd
        let top_indices := ((argsort sums).reverse).take 3
        let top := top_indices.map (fun i => terms.getD i "")
        if 0 < top.length then String.intercalate ", " top else "No topic"

/-! Section: Order facts about `argsort` -/

instance argsortRel_total (sums : List ℚ) : IsTotal Nat (argsortRel sums) := by
  constructor
  intro a b
  unfold argsortRel
  rcases lt_trichotomy (sums.getD a 0) (sums.getD b 0) with h | h | h
  · exact Or.inl (Or.inl h)
  · rcases Nat.le_total a b with hab | hab
    · exact Or.inl (Or.inr ⟨h, hab⟩)
    · exact Or.inr (Or.inr ⟨h.symm, hab⟩)
  · exact Or.inr (Or.inl h)

instance argsortRel_trans (sums : List ℚ) : IsTrans Nat (argsortRel sums) := by
  constructor
  intro a b c hab hbc
  unfold argsortRel at *
  rcases hab with h1 | ⟨h1, h1i⟩ <;> rcases hbc with h2 | ⟨h2, h2i⟩
  · exact Or.inl (h1.trans h2)
  · exact Or.inl (h2 ▸ h1)
  · exact Or.inl (h1 ▸ h2)
  · exact Or.inr ⟨h1.trans h2, h1i.trans h2i⟩

theorem argsort_perm (sums : List ℚ) :
    (argsort sums).Perm (List.range sums.length) :=
  List.perm_insertionSort _ _

theorem argsort_length (sums : List ℚ) : (argsort sums).length = sums.length := by
  rw [(argsort_perm sums).length_eq, List.length_range]

theorem argsort_sorted (sums : List ℚ) :
    (argsort sums).Pairwise (argsortRel sums) :=
  List.sorted_insertionSort _ _

/-- Reversing `argsort` yields the positions in strictly descending
weight order, ties in weight resolved by the larger position first. -/
theorem argsort_reverse_pairwise (sums : List ℚ) :
    (argsort sums).reverse.Pairwise
      (fun i j => sums.getD j 0 < sums.getD i 0 ∨
        (sums.getD i 0 = sums.getD j 0 ∧ j < i)) := by
  rw [List.pairwise_reverse]
  have hnd : (argsort sums).Nodup :=
    ((argsort_perm sums).symm).nodup (List.nodup_range _)
  have hcomb := (argsort_sorted sums).and hnd
  refine hcomb.imp ?_
  intro a b hab
  rcases hab with ⟨h1 | ⟨h1, h1i⟩, hne⟩
  · exact Or.inl h1
  · exact Or.inr ⟨h1.symm, lt_of_le_of_ne h1i hne⟩

/-- Value of `extract_topic` in the successful case: the terms at the
first three positions of the reversed `argsort` of the weights, joined
with `", "`. -/
theorem extract_topic_eq (vec : Vectorizer) (docs : List String) (pairs : List (String × ℚ))
    (hd : docs ≠ []) (hv : vec docs = .ok pairs) (hp : pairs ≠ []) :
    extract_topic vec docs = String.intercalate ", "
      ((((argsort (pairs.map Prod.snd)).reverse).take 3).map
        (fun i => (pairs.map Prod.fst).getD i "")) := by
  unfold extract_topic
  rw [if_neg (by simpa using hd), hv]
  dsimp only
  have hcond : ¬(docs.length = 0 || pairs.length = 0) = true := by
    simp [List.length_eq_zero, hd, hp]
  rw [if_neg hcond]
  have hlen : 0 < ((((argsort (pairs.map Prod.snd)).reverse).take 3).map
      (fun i => (pairs.map Prod.fst).getD i "")).length := by
    rw [List.length_map, List.length_take, List.length_reverse, argsort_length,
      List.length_map]
    have hp0 : 0 < pairs.length := List.length_pos.mpr hp
    omega
  rw [if_pos hlen]

/-- C4: `extract_topic` never propagates an error — an empty document
group, an empty post-stop-word vocabulary (vectorizer succeeds with no
features, or raises, as sklearn does on an empty vocabulary) and any
internal numeric failure all return the sentinel `"No topic"`. -/
theorem claim_C4_no_topic_sentinel (vec : Vectorizer) (docs : List String)
    (h : docs = [] ∨ (∃ e, vec docs = .error e) ∨ vec docs = .ok []) :
    extract_topic vec docs = "No topic" := by
  unfold extract_topic
  by_cases hd : docs.isEmpty = true
  · rw [if_pos hd]
  · rw [if_neg hd]
    rcases h with h | ⟨e, he⟩ | h
    · exact absurd (by simp [h]) hd
    · rw [he]
    · rw [h]
      dsimp only
      rw [if_pos (by simp)]

theorem claim_C4_witness :
    extract_topic (fun _ => .error "numeric failure") ["doc"] = "No topic" :=
  claim_C4_no_topic_sentinel (fun _ => .error "numeric failure") ["doc"]
    (Or.inr (Or.inl ⟨"numeric failure", rfl⟩))

/-! Section: C3: the tie-breaking rule of the top-3 selection -/

/-- Concrete vectorizer behaviour reproducing sklearn's `TfidfVectorizer`
on the single-document group `["apple zebra"]`: feature names come out in
alphabetical order and both terms carry the same summed weight (each is
`1/√2` in the library; only their equality matters for the ordering, so
the common value is modelled as `1`). -/
def vexC3 : Vectorizer := fun docs =>
  if docs = ["apple zebra"] then .ok [("apple", 1), ("zebra", 1)] else .error "unused"

/-- Splitting a character list into whitespace-separated words (the
accumulator carries the current word reversed). -/
def wordsAux : List Char → List Char → List (List Char)
  | [], acc => if acc.isEmpty then [] else [acc.reverse]
  | c :: cs, acc =>
    if isPySpace c then
      if acc.isEmpty then wordsAux cs [] else acc.reverse :: wordsAux cs []
    else wordsAux cs (c :: acc)

/-- The whitespace-token stream of a document group, in input order. -/
def tokensOf (docs : List String) : List String :=
  (docs.map (fun d => (wordsAux d.data []).map fun w => (⟨w⟩ : String))).flatten

/-- Position of the first occurrence of a term in the whitespace-token
stream of the document group, in input order. -/
def firstEncounter (docs : List String) (term : String) : Nat :=
  (tokensOf docs).findIdx (· = term)

/-- Ordering claimed by the specification for the top-term selection:
summed weight descending, ties broken by first-encountered term order. -/
def specTieRel (docs : List String) (p q : String × ℚ) : Prop :=
  q.2 < p.2 ∨ (p.2 = q.2 ∧ firstEncounter docs p.1 ≤ firstEncounter docs q.1)

instance (docs : List String) : DecidableRel (specTieRel docs) := by
  unfold specTieRel
  infer_instance

/-- The top-3 selection as the claim words it: top 3 terms by summed
weight descending, ties in first-encountered term order, comma-joined. -/
def extractTopicSpecTies (vec : Vectorizer) (docs : List String) : String :=
  if docs.isEmpty then "No topic"
  else
    match vec docs with
    | .error _ => "No topic"
    | .ok pairs =>
      if pairs.isEmpty then "No topic"
      else
        String.intercalate ", "
          (((List.insertionSort (specTieRel docs) pairs).take 3).map Prod.fst)

/-- C3, counterexample: on the group `["apple zebra"]` the code joins the
equal-weight terms as `"zebra, apple"` (the reversed stable `argsort`
puts the tied later term first), while the claimed first-encountered
tie-break would produce `"apple, zebra"`. -/
theorem claim_C3_counterexample :
    extract_topic vexC3 ["apple zebra"] = "zebra, apple" ∧
      extractTopicSpecTies vexC3 ["apple zebra"] = "apple, zebra" ∧
      extract_topic vexC3 ["apple zebra"] ≠ extractTopicSpecTies vexC3 ["apple zebra"] := by
  refine ⟨by decide, by decide, by decide⟩

/-- C3, amended: for every non-empty group with a non-empty vocabulary,
`extract_topic` joins with commas the first 3 terms of an ordering of all
term positions that is descending in summed weight and breaks ties by the
*later* position in the vectorizer's term list (the reverse of the
first-position order). -/
theorem claim_C3_top3_tiebreak (vec : Vectorizer) (docs : List String)
    (pairs : List (String × ℚ)) (hd : docs ≠ []) (hv : vec docs = .ok pairs)
    (hp : pairs ≠ []) :
    ∃ ord : List Nat,
      ord.Perm (List.range pairs.length) ∧
      ord.Pairwise (fun i j => (pairs.map Prod.snd).getD j 0 < (pairs.map Prod.snd).getD i 0 ∨
        ((pairs.map Prod.snd).getD i 0 = (pairs.map Prod.snd).getD j 0 ∧ j < i)) ∧
      extract_topic vec docs = String.intercalate ", "
        ((ord.take 3).map (fun i => (pairs.map Prod.fst).getD i "")) := by
  refine ⟨(argsort (pairs.map Prod.snd)).reverse, ?_, ?_, ?_⟩
  · have hperm := argsort_perm (pairs.map Prod.snd)
    rw [List.length_map] at hperm
    exact (List.reverse_perm _).trans hperm
  · exact argsort_reverse_pairwise _
  · exact extract_topic_eq vec docs pairs hd hv hp

theorem claim_C3_top3_tiebreak_witness :
    ∃ ord : List Nat,
      ord.Perm (List.range 2) ∧
      ord.Pairwise (fun i j =>
        ([("apple", (1 : ℚ)), ("zebra", 1)].map Prod.snd).getD j 0 <
            ([("apple", (1 : ℚ)), ("zebra", 1)].map Prod.snd).getD i 0 ∨
          (([("apple", (1 : ℚ)), ("zebra", 1)].map Prod.snd).getD i 0 =
              ([("apple", (1 : ℚ)), ("zebra", 1)].map Prod.snd).getD j 0 ∧ j < i)) ∧
      extract_topic vexC3 ["apple zebra"] = String.intercalate ", "
        ((ord.take 3).map (fun i =>
          ([("apple", (1 : ℚ)), ("zebra", 1)].map Prod.fst).getD i "")) :=
  claim_C3_top3_tiebreak vexC3 ["apple zebra"] [("apple", 1), ("zebra", 1)]
    (by decide) rfl (by decide)

/-! Section: C10: groups with fewer than 3 vocabulary terms -/

/-- Concrete vectorizer behaviour for a two-term vocabulary group, used to
instantiate the C10 statement. -/
def vexC10 : Vectorizer := fun docs =>
  if docs = ["alpha alpha beta"] then .ok [("alpha", 2), ("beta", 1)] else .error "unused"

/-- C10: when the vocabulary has 1 or 2 terms, `extract_topic` returns
*all* of them (in some order, namely weight-descending), comma-joined —
no failure and no padding to three entries. -/
theorem claim_C10_few_terms (vec : Vectorizer) (docs : List String)
    (pairs : List (String × ℚ)) (hd : docs ≠ []) (hv : vec docs = .ok pairs)
    (h1 : 0 < pairs.length) (h2 : pairs.length < 3) :
    ∃ sel : List Nat,
      sel.Perm (List.range pairs.length) ∧
      sel.length = pairs.length ∧
      extract_topic vec docs = String.intercalate ", "
        (sel.map (fun i => (pairs.map Prod.fst).getD i "")) := by
  have hlen : (argsort (pairs.map Prod.snd)).reverse.length = pairs.length := by
    rw [List.length_reverse, argsort_length, List.length_map]
  refine ⟨(argsort (pairs.map Prod.snd)).reverse, ?_, hlen, ?_⟩
  · have hperm := argsort_perm (pairs.map Prod.snd)
    rw [List.length_map] at hperm
    exact (List.reverse_perm _).trans hperm
  · rw [extract_topic_eq vec docs pairs hd hv (List.length_pos.mp h1),
      List.take_of_length_le (by omega)]

theorem claim_C10_few_terms_witness :
    ∃ sel : List Nat,
      sel.Perm (List.range ([("alpha", (2 : ℚ)), ("beta", 1)]).length) ∧
      sel.length = ([("alpha", (2 : ℚ)), ("beta", 1)]).length ∧
      extract_topic vexC10 ["alpha alpha beta"] = String.intercalate ", "
        (sel.map (fun i => ([("alpha", (2 : ℚ)), ("beta", 1)].map Prod.fst).getD i "")) :=
  claim_C10_few_terms vexC10 ["alpha alpha beta"] [("alpha", 2), ("beta", 1)]
    (by decide) rfl (by decide) (by decide)

/-! Section: `run_document_clustering` (maincode.py lines 40–81)

The sentence-embedding model (`model.encode`, line 60) and the k-means
clusterer (`KMeans(...).fit_predict`, lines 64–65) are external library
code; they enter as the parameters `encode` and `kmeansFitPredict`.  The
clusterer parameter receives the random seed explicitly — the source pins
it to `random_state=42` — followed by `k` and the embeddings. -/

/-- One entry of the cluster response: `{"topic": ..., "docs": ...}`
(lines 75–78). -/
structure ClusterOut where
  topic : String
  docs : List String
deriving DecidableEq

/-- `original_indices` (lines 48–53): positions of the documents that
survive the `d.strip()` test, in input order. -/
def survivingIndices (documents : List String) : List Nat :=
  (documents.enum.filter (fun p => pyStripTruthy p.2)).map Prod.fst

/-- `cleaned` (lines 48–53): the cleaned text of each surviving document. -/
def cleanedDocs (documents : List String) : List String :=
  (documents.enum.filter (fun p => pyStripTruthy p.2)).map (fun p => clean_text p.2)

/-- The raw surviving documents, in input order. -/
def survivingDocs (documents : List String) : List String :=
  (documents.enum.filter (fun p => pyStripTruthy p.2)).map Prod.snd

/-- The positions `i < n` of the surviving-document sequence that carry
label `cid` (`[i for i in range(len(cleaned)) if labels[i] == cid]`). -/
def memberPositions (labels : List Nat) (n : Nat) (cid : Nat) : List Nat :=
  (List.range n).filter (fun i => labels.getD i 0 = cid)

/-- `docs_in_cluster` (line 72): the raw documents of cluster `cid`,
recovered through `original_indices`. -/
def docsInCluster (documents : List String) (original_indices : List Nat)
    (labels : List Nat) (n : Nat) (cid : Nat) : List String :=
  (memberPositions labels n cid).map
    (fun i => documents.getD (original_indices.getD i 0) "")

/-- The f-string of line 56. -/
def clusterCountMsg (k n : Nat) : String :=
  "Number of clusters (" ++ toString k ++ ") cannot exceed number of documents ("
    ++ toString n ++ ")"

/-- `run_document_clustering`: validate, clean with index bookkeeping,
embed, cluster with the fixed seed 42, then assemble one cluster entry
per `cid in range(k)`.  Returns the triple `(labels, topics, clusters)`
of line 81; `topics` is the dict initialised on line 69 and never
written. -/
def run_document_clustering {E : Type} (vec : Vectorizer)
    (encode : List String → E) (kmeansFitPredict : Nat → Nat → E → List Nat)
    (documents : List String) (k : Nat) :
    Except String (List Nat × List (Nat × String) × List (Nat × ClusterOut)) :=
  if documents.isEmpty then .error "No documents provided"
  else
    let cleaned := cleanedDocs documents
    let original_indices := survivingIndices documents
    if cleaned.length < k then .error (clusterCountMsg k cleaned.length)
    else
      let embeddings := encode cleaned
      let labels := kmeansFitPredict 42 k embeddings
      let topics : List (Nat × String) := []
      let clusters := (List.range k).map (fun cid =>
        let docs_in_cluster :=
          docsInCluster documents original_indices labels cleaned.length cid
        (cid, { topic := extract_topic vec docs_in_cluster
                docs := docs_in_cluster }))
      .ok (labels, topics, clusters)

/-! Section: Index bookkeeping facts -/

theorem getD_of_mem_enum {α : Type} (l : List α) (p : Nat × α) (hp : p ∈ l.enum) (d : α) :
    l.getD p.1 d = p.2 := by
  have h := List.mem_enum_iff_getElem?.mp hp
  rw [List.getD_eq_getElem?_getD, h]
  rfl

theorem length_survivingIndices (documents : List String) :
    (survivingIndices documents).length = (cleanedDocs documents).length := by
  unfold survivingIndices cleanedDocs
  rw [List.length_map, List.length_map]

theorem length_survivingDocs (documents : List String) :
    (survivingDocs documents).length = (cleanedDocs documents).length := by
  unfold survivingDocs cleanedDocs
  rw [List.length_map, List.length_map]

/-- Looking a surviving position up in the original list gives the same
document as position `i` of the surviving sequence
(`documents[original_indices[i]]`, line 72). -/
theorem surviving_getD (documents : List String) (i : Nat)
    (hi : i < (cleanedDocs documents).length) :
    documents.getD ((survivingIndices documents).getD i 0) "" =
      (survivingDocs documents).getD i "" := by
  have hlen : i < (documents.enum.filter (fun p => pyStripTruthy p.2)).length := by
    unfold cleanedDocs at hi
    rwa [List.length_map] at hi
  have h1 : (survivingIndices documents).getD i 0 =
      ((documents.enum.filter (fun p => pyStripTruthy p.2))[i]).1 := by
    unfold survivingIndices
    rw [List.getD_eq_getElem _ _ (by rw [List.length_map]; exact hlen), List.getElem_map]
  have h2 : (survivingDocs documents).getD i "" =
      ((documents.enum.filter (fun p => pyStripTruthy p.2))[i]).2 := by
    unfold survivingDocs
    rw [List.getD_eq_getElem _ _ (by rw [List.length_map]; exact hlen), List.getElem_map]
  rw [h1, h2]
  exact getD_of_mem_enum documents _
    (List.mem_of_mem_filter (List.getElem_mem hlen)) ""

/-- `docs_in_cluster` is the label-`cid` subsequence of the surviving
documents. -/
theorem docsInCluster_eq (documents : List String) (labels : List Nat) (cid : Nat) :
    docsInCluster documents (survivingIndices documents) labels
        (cleanedDocs documents).length cid =
      (memberPositions labels (cleanedDocs documents).length cid).map
        (fun i => (survivingDocs documents).getD i "") := by
  unfold docsInCluster
  apply List.map_congr_left
  intro i hi
  have hlt : i < (cleanedDocs documents).length :=
    List.mem_range.mp (List.mem_of_mem_filter hi)
  exact surviving_getD documents i hlt

/-- Selecting positions of `l` by any predicate on `range l.length` and
reading them off in order yields a sublist of `l`. -/
theorem filterRange_map_getD_sublist {α : Type} (l : List α) (p : Nat → Bool) (d : α) :
    (((List.range l.length).filter p).map (fun i => l.getD i d)).Sublist l := by
  induction l generalizing p with
  | nil => simp
  | cons a t ih =>
    rw [List.length_cons, List.range_succ_eq_map, List.filter_cons]
    have hrest : ((List.filter p (List.map Nat.succ (List.range t.length))).map
        (fun i => (a :: t).getD i d)) =
        ((List.range t.length).filter (fun i => p (Nat.succ i))).map (fun i => t.getD i d) := by
      rw [List.filter_map, List.map_map]
      apply List.map_congr_left
      intro i _
      rfl
    by_cases hp : p 0 = true
    · rw [if_pos hp, List.map_cons, hrest]
      exact List.Sublist.cons₂ a (ih (fun i => p (Nat.succ i)))
    · rw [if_neg hp, hrest]
      exact List.Sublist.cons a (ih (fun i => p (Nat.succ i)))

theorem sum_map_add {α : Type} (l : List α) (f g : α → Nat) :
    (l.map (fun x => f x + g x)).sum = (l.map f).sum + (l.map g).sum := by
  induction l with
  | nil => rfl
  | cons a t ih =>
    simp only [List.map_cons, List.sum_cons, ih]
    omega

theorem sum_indicator_range (m k : Nat) (h : m < k) :
    ((List.range k).map (fun c => if m = c then 1 else 0)).sum = 1 := by
  induction k with
  | zero => omega
  | succ k ih =>
    rw [List.range_succ, List.map_append, List.sum_append]
    by_cases hm : m = k
    · subst hm
      have h0 : ((List.range m).map (fun c => if m = c then 1 else 0)).sum = 0 := by
        apply List.sum_eq_zero
        intro x hx
        rcases List.mem_map.mp hx with ⟨c, hc, rfl⟩
        rw [if_neg (by rintro rfl; exact absurd (List.mem_range.mp hc) (lt_irrefl _))]
      rw [h0]
      simp
    · rw [ih (by omega)]
      simp [hm]

/-- Every position with an in-range label lands in exactly one of the `k`
member lists, so the lengths add up. -/
theorem sum_filter_label_lengths (labels : List Nat) (k : Nat) (is : List Nat)
    (h : ∀ i ∈ is, labels.getD i 0 < k) :
    ((List.range k).map
      (fun c => (is.filter (fun i => labels.getD i 0 = c)).length)).sum = is.length := by
  induction is with
  | nil => simp
  | cons a t ih =>
    have ha := h a (List.mem_cons_self a t)
    have ht : ∀ i ∈ t, labels.getD i 0 < k := fun i hi => h i (List.mem_cons_of_mem a hi)
    have hsplit : ∀ c : Nat, ((a :: t).filter (fun i => labels.getD i 0 = c)).length
        = (if labels.getD a 0 = c then 1 else 0)
          + (t.filter (fun i => labels.getD i 0 = c)).length := by
      intro c
      rw [List.filter_cons]
      by_cases hc : labels.getD a 0 = c
      · rw [if_pos (by simpa using hc), if_pos hc, List.length_cons]
        omega
      · rw [if_neg (by simpa using hc), if_neg hc]
        omega
    have hmap : ((List.range k).map
        (fun c => ((a :: t).filter (fun i => labels.getD i 0 = c)).length)).sum
        = ((List.range k).map (fun c => (if labels.getD a 0 = c then 1 else 0)
          + (t.filter (fun i => labels.getD i 0 = c)).length)).sum := by
      apply congrArg
      apply List.map_congr_left
      intro c _
      exact hsplit c
    rw [hmap, sum_map_add, sum_indicator_range _ _ ha, ih ht, List.length_cons]
    omega

/-- Inversion of the success case: a `.ok` result pins down both
validation outcomes and the returned triple. -/
theorem run_document_clustering_ok {E : Type} (vec : Vectorizer)
    (encode : List String → E) (kmeansFitPredict : Nat → Nat → E → List Nat)
    (documents : List String) (k : Nat)
    (res : List Nat × List (Nat × String) × List (Nat × ClusterOut))
    (h : run_document_clustering vec encode kmeansFitPredict documents k = .ok res) :
    ¬documents.isEmpty = true ∧ ¬(cleanedDocs documents).length < k ∧
      res = (kmeansFitPredict 42 k (encode (cleanedDocs documents)), [],
        (List.range k).map (fun cid =>
          let dc := docsInCluster documents (survivingIndices documents)
            (kmeansFitPredict 42 k (encode (cleanedDocs documents)))
            (cleanedDocs documents).length cid
          (cid, { topic := extract_topic vec dc, docs := dc }))) := by
  unfold run_document_clustering at h
  by_cases h1 : documents.isEmpty = true
  · rw [if_pos h1] at h
    simp at h
  · rw [if_neg h1] at h
    dsimp only at h
    by_cases h2 : (cleanedDocs documents).length < k
    · rw [if_pos h2] at h
      simp at h
    · rw [if_neg h2] at h
      refine ⟨h1, h2, ?_⟩
      injection h with h
      exact h.symm

/-- C1: in every successful run whose labels are one per cleaned document
and in range (the k-means contract), each surviving document position
belongs to exactly one cluster's member list, every cluster's docs are
exactly its members' documents and form a subsequence of the surviving
documents in original input order, and the document counts of the k
clusters add up to the number N of surviving documents. -/
theorem claim_C1_partition {E : Type} (vec : Vectorizer) (encode : List String → E)
    (kmeansFitPredict : Nat → Nat → E → List Nat) (documents : List String) (k : Nat)
    (res : List Nat × List (Nat × String) × List (Nat × ClusterOut))
    (hrun : run_document_clustering vec encode kmeansFitPredict documents k = .ok res)
    (hval : ∀ i, i < (cleanedDocs documents).length → res.1.getD i 0 < k) :
    (∀ i, i < (cleanedDocs documents).length →
      ∃! cid, cid < k ∧ i ∈ memberPositions res.1 (cleanedDocs documents).length cid) ∧
    (∀ p ∈ res.2.2,
      p.2.docs = (memberPositions res.1 (cleanedDocs documents).length p.1).map
          (fun i => (survivingDocs documents).getD i "") ∧
      p.2.docs.Sublist (survivingDocs documents)) ∧
    ((res.2.2).map (fun p => p.2.docs.length)).sum = (cleanedDocs documents).length := by
  obtain ⟨h1, h2, hres⟩ :=
    run_document_clustering_ok vec encode kmeansFitPredict documents k res hrun
  subst hres
  dsimp only at hval ⊢
  refine ⟨?_, ?_, ?_⟩
  · intro i hi
    refine ⟨(kmeansFitPredict 42 k (encode (cleanedDocs documents))).getD i 0,
      ⟨hval i hi, ?_⟩, ?_⟩
    · unfold memberPositions
      exact List.mem_filter.mpr ⟨List.mem_range.mpr hi, by simp⟩
    · rintro cid ⟨hcid, hmem⟩
      unfold memberPositions at hmem
      have := (List.mem_filter.mp hmem).2
      simp only [decide_eq_true_eq] at this
      exact this.symm
  · intro p hp
    rcases List.mem_map.mp hp with ⟨cid, _, rfl⟩
    dsimp only
    constructor
    · exact docsInCluster_eq documents _ cid
    · rw [docsInCluster_eq documents _ cid]
      unfold memberPositions
      have hsub := filterRange_map_getD_sublist (survivingDocs documents)
        (fun i => decide ((kmeansFitPredict 42 k
          (encode (cleanedDocs documents))).getD i 0 = cid)) ""
      rw [length_survivingDocs documents] at hsub
      exact hsub
  · rw [List.map_map]
    have hmap : ((List.range k).map ((fun p : Nat × ClusterOut => p.2.docs.length) ∘
        (fun cid =>
          let dc := docsInCluster documents (survivingIndices documents)
            (kmeansFitPredict 42 k (encode (cleanedDocs documents)))
            (cleanedDocs documents).length cid
          (cid, ({ topic := extract_topic vec dc, docs := dc } : ClusterOut)))))
        = (List.range k).map (fun cid =>
            ((List.range (cleanedDocs documents).length).filter
              (fun i => (kmeansFitPredict 42 k
                (encode (cleanedDocs documents))).getD i 0 = cid)).length) := by
      apply List.map_congr_left
      intro cid _
      simp only [Function.comp]
      unfold docsInCluster memberPositions
      rw [List.length_map]
    rw [hmap, sum_filter_label_lengths _ k _
      (fun i hi => hval i (List.mem_range.mp hi)), List.length_range]

theorem claim_C1_partition_witness :
    (∀ i, i < (cleanedDocs ["a", "b"]).length →
      ∃! cid, cid < 2 ∧ i ∈ memberPositions
        (([0, 1], ([] : List (Nat × String)),
          [(0, ClusterOut.mk "No topic" ["a"]), (1, ClusterOut.mk "No topic" ["b"])]).1)
        (cleanedDocs ["a", "b"]).length cid) ∧
    (∀ p ∈ (([0, 1], ([] : List (Nat × String)),
        [(0, ClusterOut.mk "No topic" ["a"]), (1, ClusterOut.mk "No topic" ["b"])]).2.2),
      p.2.docs = (memberPositions
          (([0, 1], ([] : List (Nat × String)),
            [(0, ClusterOut.mk "No topic" ["a"]), (1, ClusterOut.mk "No topic" ["b"])]).1)
          (cleanedDocs ["a", "b"]).length p.1).map
          (fun i => (survivingDocs ["a", "b"]).getD i "") ∧
      p.2.docs.Sublist (survivingDocs ["a", "b"])) ∧
    ((([0, 1], ([] : List (Nat × String)),
        [(0, ClusterOut.mk "No topic" ["a"]), (1, ClusterOut.mk "No topic" ["b"])]).2.2).map
      (fun p => p.2.docs.length)).sum = (cleanedDocs ["a", "b"]).length :=
  claim_C1_partition (fun _ => Except.error "w") (fun _ => (0 : Nat))
    (fun _ _ _ => [0, 1]) ["a", "b"] 2
    ([0, 1], [], [(0, ClusterOut.mk "No topic" ["a"]), (1, ClusterOut.mk "No topic" ["b"])])
    rfl (by decide)

/-- C2: every successful run returns exactly `k` cluster entries with ids
`0..k-1` in order — each id present even with zero members — and an
empty cluster carries the sentinel topic `"No topic"` together with an
empty docs sequence. -/
theorem claim_C2_total_coverage {E : Type} (vec : Vectorizer) (encode : List String → E)
    (kmeansFitPredict : Nat → Nat → E → List Nat) (documents : List String) (k : Nat)
    (res : List Nat × List (Nat × String) × List (Nat × ClusterOut))
    (hrun : run_document_clustering vec encode kmeansFitPredict documents k = .ok res) :
    res.2.2.length = k ∧ res.2.2.map Prod.fst = List.range k ∧
      ∀ p ∈ res.2.2, p.2.docs = [] → p.2.topic = "No topic" := by
  obtain ⟨h1, h2, hres⟩ :=
    run_document_clustering_ok vec encode kmeansFitPredict documents k res hrun
  subst hres
  dsimp only
  refine ⟨by rw [List.length_map, List.length_range], ?_, ?_⟩
  · rw [List.map_map]
    exact List.map_congr_left (fun cid _ => rfl) |>.trans (List.map_id _)
  · intro p hp hempty
    rcases List.mem_map.mp hp with ⟨cid, _, rfl⟩
    dsimp only at hempty ⊢
    rw [hempty]
    rfl

theorem claim_C2_total_coverage_witness :
    (([0, 0], ([] : List (Nat × String)),
      [(0, ClusterOut.mk "No topic" ["a", "b"]), (1, ClusterOut.mk "No topic" [])]).2.2.length
        = 2) ∧
    (([0, 0], ([] : List (Nat × String)),
      [(0, ClusterOut.mk "No topic" ["a", "b"]),
        (1, ClusterOut.mk "No topic" [])]).2.2.map Prod.fst = List.range 2) ∧
    ∀ p ∈ (([0, 0], ([] : List (Nat × String)),
      [(0, ClusterOut.mk "No topic" ["a", "b"]), (1, ClusterOut.mk "No topic" [])]).2.2),
      p.2.docs = [] → p.2.topic = "No topic" :=
  claim_C2_total_coverage (fun _ => Except.error "w") (fun _ => (0 : Nat))
    (fun _ _ _ => [0, 0]) ["a", "b"] 2
    ([0, 0], [], [(0, ClusterOut.mk "No topic" ["a", "b"]), (1, ClusterOut.mk "No topic" [])])
    rfl

/-- C9: the `topics` component of a successful result is always the empty
mapping — it is initialised on line 69 and never written, so per-cluster
topics are observable only inside the clusters mapping. -/
theorem claim_C9_topics_never_written {E : Type} (vec : Vectorizer)
    (encode : List String → E) (kmeansFitPredict : Nat → Nat → E → List Nat)
    (documents : List String) (k : Nat)
    (res : List Nat × List (Nat × String) × List (Nat × ClusterOut))
    (hrun : run_document_clustering vec encode kmeansFitPredict documents k = .ok res) :
    res.2.1 = [] := by
  obtain ⟨-, -, hres⟩ :=
    run_document_clustering_ok vec encode kmeansFitPredict documents k res hrun
  rw [hres]

theorem claim_C9_topics_never_written_witness :
    (([0], ([] : List (Nat × String)), [(0, ClusterOut.mk "No topic" ["x"])]).2.1
      : List (Nat × String)) = [] :=
  claim_C9_topics_never_written (fun _ => Except.error "w") (fun _ => (0 : Nat))
    (fun _ _ _ => [0]) ["x"] 1 ([0], [], [(0, ClusterOut.mk "No topic" ["x"])]) rfl

/-- C7: two runs of the pipeline on the same document list with the same
(deterministic) embedder and the same seeded clusterer — the source pins
`random_state=42`, applied inside `run_document_clustering` — produce
identical label assignments. -/
theorem claim_C7_determinism {E : Type} (vec : Vectorizer) (encode : List String → E)
    (kmeansFitPredict : Nat → Nat → E → List Nat) (documents : List String) (k : Nat)
    (r1 r2 : List Nat × List (Nat × String) × List (Nat × ClusterOut))
    (h1 : run_document_clustering vec encode kmeansFitPredict documents k = .ok r1)
    (h2 : run_document_clustering vec encode kmeansFitPredict documents k = .ok r2) :
    r1.1 = r2.1 := by
  rw [h1] at h2
  injection h2 with h2
  rw [h2]

theorem claim_C7_determinism_witness :
    (([0], ([] : List (Nat × String)), [(0, ClusterOut.mk "No topic" ["y"])]).1
      : List Nat) =
      (([0], ([] : List (Nat × String)), [(0, ClusterOut.mk "No topic" ["y"])]).1
        : List Nat) :=
  claim_C7_determinism (fun _ => Except.error "w") (fun _ => (0 : Nat))
    (fun _ _ _ => [0]) ["y"] 1 ([0], [], [(0, ClusterOut.mk "No topic" ["y"])])
    ([0], [], [(0, ClusterOut.mk "No topic" ["y"])]) rfl rfl

/-- C5: with too few surviving documents (`len(cleaned) < k`) — and in
particular with an empty input list — the pipeline fails during
validation, with a result that does not depend on the embedding or
clustering parameters at all: no numeric work is reachable. -/
theorem claim_C5_validation_first (documents : List String) (k : Nat)
    (h : documents = [] ∨ (documents ≠ [] ∧ (cleanedDocs documents).length < k)) :
    ∀ (E : Type) (vec : Vectorizer) (encode : List String → E)
      (kmeansFitPredict : Nat → Nat → E → List Nat),
      run_document_clustering vec encode kmeansFitPredict documents k =
        .error (if documents.isEmpty then "No documents provided"
          else clusterCountMsg k (cleanedDocs documents).length) := by
  intro E vec encode kmeansFitPredict
  unfold run_document_clustering
  rcases h with h | ⟨h1, h2⟩
  · subst h
    rfl
  · have hne : ¬(documents.isEmpty = true) := by
      simpa [List.isEmpty_iff] using h1
    rw [if_neg hne, if_neg hne]
    dsimp only
    rw [if_pos h2]

theorem claim_C5_validation_first_witness :
    run_document_clustering (fun _ => Except.error "w") (fun _ => (0 : Nat))
        (fun _ _ _ => []) ["   "] 1 =
      .error (if (["   "] : List String).isEmpty then "No documents provided"
        else clusterCountMsg 1 (cleanedDocs ["   "]).length) :=
  claim_C5_validation_first ["   "] 1 (Or.inr ⟨by decide, by decide⟩)
    Nat (fun _ => Except.error "w") (fun _ => (0 : Nat)) (fun _ _ _ => [])

/-! Section: `cluster_api` (app.py lines 24–82)

The endpoint's collaborators — the file-extraction helper
`process_uploaded_files`, Python's `int()` conversion and the clustering
pipeline call — enter as parameters.  The request surface carries what
the handler inspects: the uploaded files, the `request.is_json` flag, the
parsed body (`request.get_json(silent=True)`, `none` when unparsable) and
the raw `clusters` form field. -/

/-- Parsed JSON body: `data.get("documents", [])` and the optional
`clusters` entry. -/
structure JsonBody where
  documents : List String
  clusters : Option Int
deriving DecidableEq

/-- The request as `cluster_api` sees it. -/
structure ApiRequest (F : Type) where
  files : List F
  isJson : Bool
  jsonBody : Option JsonBody
  formClusters : Option String

/-- HTTP outcome: 200 with the clusters mapping, 400 with an error
message, or 500 from the catch-all handler of line 80. -/
inductive ApiResponse
  | ok (clusters : List (Nat × ClusterOut))
  | badRequest (msg : String)
  | serverError (msg : String)
deriving DecidableEq

/-- Outcome of the pipeline call as the handlers of lines 77–82 classify
it: a `ValueError` becomes a 400, any other exception a 500. -/
inductive PipeResult
  | success (clusters : List (Nat × ClusterOut))
  | valueError (msg : String)
  | otherError (msg : String)

/-- Lines 28–59: choose the document list from uploaded files or the JSON
body, or reject the request. -/
def selectDocuments {F : Type} (extract : List F → List String × List String)
    (req : ApiRequest F) : Except ApiResponse (List String) :=
  if req.files.length > 0 then
    let documents := (extract req.files).1
    if documents.isEmpty then
      .error (.badRequest ("No documents extracted. Errors: "
        ++ String.intercalate "; " (extract req.files).2))
    else .ok documents
  else if req.isJson then
    match req.jsonBody with
    | none => .error (.badRequest "No JSON received")
    | some data =>
      if data.documents.isEmpty then
        .error (.badRequest "Please enter at least one document")
      else
        let documents := (data.documents.filter pyStripTruthy).map pyStrip
        if documents.length = 0 then .error (.badRequest "No valid documents found")
        else .ok documents
  else .error (.badRequest "Please provide either documents or files")

/-- Line 61: `int(request.form.get('clusters', request.get_json(silent=True)
.get('clusters', 2) if request.is_json else 2))`.  A malformed form value
raises `ValueError` (caught on line 77, a 400); an unparsable JSON body at
this point would raise `AttributeError` on `None.get` (caught on line 80,
a 500). -/
def parseClusterCount {F : Type} (parseNum : String → Except String Int)
    (req : ApiRequest F) : Except ApiResponse Int :=
  match req.formClusters with
  | some s =>
    match parseNum s with
    | .ok k => .ok k
    | .error e => .error (.badRequest e)
  | none =>
    if req.isJson then
      match req.jsonBody with
      | some data => .ok (data.clusters.getD 2)
      | none => .error (.serverError "Clustering failed: AttributeError")
    else .ok 2

/-- The bounds message of line 64. -/
def boundsMsg : String := "Number of clusters must be between 2 and 20"

/-- The f-string of line 67. -/
def apiCountMsg (k : Int) (n : Nat) : String :=
  "Number of clusters (" ++ toString k ++ ") cannot exceed number of documents ("
    ++ toString n ++ ")"

/-- `cluster_api` (app.py lines 24–82). -/
def cluster_api {F : Type} (extract : List F → List String × List String)
    (parseNum : String → Except String Int)
    (pipeline : List String → Int → PipeResult)
    (req : ApiRequest F) : ApiResponse :=
  match selectDocuments extract req with
  | .error resp => resp
  | .ok documents =>
    match parseClusterCount parseNum req with
    | .error resp => resp
    | .ok k =>
      if k < 2 || k > 20 then .badRequest boundsMsg
      else if (documents.length : Int) < k then .badRequest (apiCountMsg k documents.length)
      else
        match pipeline documents k with
        | .success clusters => .ok clusters
        | .valueError msg => .badRequest msg
        | .otherError msg => .serverError ("Clustering failed: " ++ msg)

/-! Section: C8: validation at the request boundary -/

theorem append_ne_empty_of_left (a b : String) (ha : a ≠ "") : a ++ b ≠ "" := by
  intro h
  apply ha
  have hl := congrArg String.length h
  rw [String.length_append] at hl
  have h0 : ("" : String).length = 0 := rfl
  rw [h0] at hl
  have ha0 : a.data.length = 0 := by
    have hla : a.length = a.data.length := rfl
    omega
  exact String.ext (List.length_eq_zero.mp ha0)

/-- Every rejection of the document-selection phase is a 400 with a
non-empty message. -/
theorem selectDocuments_error {F : Type} (extract : List F → List String × List String)
    (req : ApiRequest F) (r : ApiResponse)
    (h : selectDocuments extract req = .error r) :
    ∃ m, m ≠ "" ∧ r = ApiResponse.badRequest m := by
  unfold selectDocuments at h
  by_cases hf : req.files.length > 0
  · rw [if_pos hf] at h
    dsimp only at h
    by_cases he : ((extract req.files).1).isEmpty = true
    · rw [if_pos he] at h
      injection h with h
      exact ⟨_, append_ne_empty_of_left _ _ (by decide), h.symm⟩
    · rw [if_neg he] at h
      simp at h
  · rw [if_neg hf] at h
    by_cases hj : req.isJson = true
    · rw [if_pos hj] at h
      match hb : req.jsonBody with
      | none =>
        rw [hb] at h
        injection h with h
        exact ⟨"No JSON received", by decide, h.symm⟩
      | some data =>
        rw [hb] at h
        dsimp only at h
        by_cases hd : data.documents.isEmpty = true
        · rw [if_pos hd] at h
          injection h with h
          exact ⟨"Please enter at least one document", by decide, h.symm⟩
        · rw [if_neg hd] at h
          by_cases hz : ((data.documents.filter pyStripTruthy).map pyStrip).length = 0
          · rw [if_pos hz] at h
            injection h with h
            exact ⟨"No valid documents found", by decide, h.symm⟩
          · rw [if_neg hz] at h
            simp at h
    · rw [if_neg hj] at h
      injection h with h
      exact ⟨"Please provide either documents or files", by decide, h.symm⟩

/-- A request supplying neither files nor JSON documents. -/
def noInputReq {F : Type} (req : ApiRequest F) : Prop :=
  req.files = [] ∧ (req.isJson = false ∨ req.jsonBody = none ∨
    ∃ b, req.jsonBody = some b ∧ b.documents = [])

/-- With neither documents nor files, the selection phase always
rejects. -/
theorem noInput_select_error {F : Type} (extract : List F → List String × List String)
    (req : ApiRequest F) (hno : noInputReq req) (docs : List String) :
    selectDocuments extract req ≠ .ok docs := by
  obtain ⟨hfiles, hrest⟩ := hno
  intro h
  unfold selectDocuments at h
  rw [if_neg (by simp [hfiles])] at h
  rcases hrest with hj | hb | ⟨b, hb, hdocs⟩
  · rw [hj] at h
    simp at h
  · by_cases hj : req.isJson = true
    · rw [if_pos hj, hb] at h
      simp at h
    · rw [if_neg hj] at h
      simp at h
  · by_cases hj : req.isJson = true
    · rw [if_pos hj, hb] at h
      dsimp only at h
      rw [if_pos (by rw [hdocs]; rfl)] at h
      simp at h
    · rw [if_neg hj] at h
      simp at h

/-- C8: a request with out-of-bounds `k` (`k < 2` or `k > 20`), or with
`k` exceeding the number of selected (non-empty) documents, or supplying
neither documents nor files, is answered with a 400 and a non-empty
error message, identically for any clustering pipeline — clustering is
never reached and the handler does not crash. -/
theorem claim_C8_boundary_validation {F : Type}
    (extract : List F → List String × List String)
    (parseNum : String → Except String Int)
    (pl₁ pl₂ : List String → Int → PipeResult)
    (req : ApiRequest F)
    (hcond : noInputReq req ∨
      (∃ k, parseClusterCount parseNum req = Except.ok k ∧ (k < 2 ∨ 20 < k)) ∨
      (∃ docs k, selectDocuments extract req = Except.ok docs ∧
        parseClusterCount parseNum req = Except.ok k ∧ (docs.length : Int) < k)) :
    ∃ msg, msg ≠ "" ∧
      cluster_api extract parseNum pl₁ req = .badRequest msg ∧
      cluster_api extract parseNum pl₂ req = .badRequest msg := by
  cases hsel : selectDocuments extract req with
  | error resp =>
    obtain ⟨m, hm, rfl⟩ := selectDocuments_error extract req resp hsel
    refine ⟨m, hm, ?_, ?_⟩ <;> (unfold cluster_api; rw [hsel])
  | ok docs =>
    rcases hcond with hno | ⟨k, hk, hbound⟩ | ⟨docs2, k, hdocs2, hk, hlen⟩
    · exact absurd hsel (noInput_select_error extract req hno docs)
    · have key : ∀ pl, cluster_api extract parseNum pl req =
          ApiResponse.badRequest boundsMsg := by
        intro pl
        unfold cluster_api
        rw [hsel]
        dsimp only
        rw [hk]
        dsimp only
        rw [if_pos (by rcases hbound with h | h <;> simp [h])]
      exact ⟨boundsMsg, by decide, key pl₁, key pl₂⟩
    · rw [hsel] at hdocs2
      injection hdocs2 with hdocs2
      subst hdocs2
      by_cases hb : k < 2 ∨ 20 < k
      · have key : ∀ pl, cluster_api extract parseNum pl req =
            ApiResponse.badRequest boundsMsg := by
          intro pl
          unfold cluster_api
          rw [hsel]
          dsimp only
          rw [hk]
          dsimp only
          rw [if_pos (by rcases hb with h | h <;> simp [h])]
        exact ⟨boundsMsg, by decide, key pl₁, key pl₂⟩
      · have key : ∀ pl, cluster_api extract parseNum pl req =
            ApiResponse.badRequest (apiCountMsg k docs.length) := by
          intro pl
          unfold cluster_api
          rw [hsel]
          dsimp only
          rw [hk]
          dsimp only
          rw [if_neg (by
            simp only [Bool.or_eq_true, decide_eq_true_eq]
            omega), if_pos hlen]
        refine ⟨apiCountMsg k docs.length, ?_, key pl₁, key pl₂⟩
        unfold apiCountMsg
        apply append_ne_empty_of_left
        apply append_ne_empty_of_left
        apply append_ne_empty_of_left
        apply append_ne_empty_of_left
        decide

theorem claim_C8_boundary_validation_witness :
    ∃ msg, msg ≠ "" ∧
      cluster_api (F := Unit) (fun _ => ([], []))
          (fun _ => Except.error "invalid literal")
          (fun _ _ => PipeResult.otherError "x")
          ⟨[], true, some ⟨["a", "b"], some 25⟩, none⟩ = .badRequest msg ∧
      cluster_api (F := Unit) (fun _ => ([], []))
          (fun _ => Except.error "invalid literal")
          (fun _ _ => PipeResult.otherError "y")
          ⟨[], true, some ⟨["a", "b"], some 25⟩, none⟩ = .badRequest msg :=
  claim_C8_boundary_validation (F := Unit) (fun _ => ([], []))
    (fun _ => Except.error "invalid literal")
    (fun _ _ => PipeResult.otherError "x") (fun _ _ => PipeResult.otherError "y")
    ⟨[], true, some ⟨["a", "b"], some 25⟩, none⟩
    (Or.inr (Or.inl ⟨25, rfl, Or.inr (by decide)⟩))
